import Mathlib

/-!
Formal model of the Peng3D scene / rigid-body extension.

The development shallowly embeds the stateful core of the extension class
(object registry, physics-body registry, transform synchronisation, the
explicit physics step scheduler, the forward raycast query, and the JSON
scene serializer) as pure functions over an explicit state record.

Modelling conventions:
* Scalars are a linearly ordered field `α` (instantiated with `ℚ` for
  executable examples and with `ℝ` where the real constant `π` matters).
* The JS objects `this.objects`, `this.physicsBodies`, `this.objectPhysData`
  are association lists keyed by name, preserving JS string-key insertion
  order (assignment to an existing key keeps its position; delete followed
  by re-assignment moves the key to the end).
* The host math library (three.js / cannon.js) is abstracted by a record
  `ThreeMath` of the opaque host operations the code calls (Euler/quaternion
  conversions, quaternion application, look-at, per-object ray intersection,
  square root) together with the constant `pi`.  The underlying rigid-body
  solver (`world.step`) is passed to `stepPhysics` as an explicit function
  argument, mirroring "consumed from the physics collaborator".
* All operations model the post-initialisation (`loaded = true`) behaviour;
  the lazy script-loading / deferral wrapper is outside the state machine.
* Collision-shape construction (`body.addShape`) and contact-material
  bookkeeping are not modelled: no stated property mentions them.
* `world.removeBody` removes a body by its (globally unique, auto-
  incremented) id; we model world membership as the list of body ids.
-/

namespace Peng3D

/-- Three-component vector of scalars, mirroring `THREE.Vector3` /
`CANNON.Vec3` as used by the extension. -/
structure Vec3 (α : Type) where
  x : α
  y : α
  z : α
  deriving DecidableEq

/-- Quaternion `(x, y, z, w)`, mirroring `THREE.Quaternion` /
`CANNON.Quaternion`. -/
structure Quat (α : Type) where
  x : α
  y : α
  z : α
  w : α
  deriving DecidableEq

/-- The node kind a created object gets: a mesh (one of the five shared
geometries), a point light, or a perspective camera. -/
inductive NodeKind where
  | mesh
  | light
  | camera
  deriving DecidableEq

/-- Cannon body classification (`CANNON.Body.DYNAMIC` / `CANNON.Body.STATIC`),
toggled by the `fixed` physics property. -/
inductive BodyType where
  | dynamic
  | static
  deriving DecidableEq

/-- A named visual node of the scene: the fields of the three.js `Object3D`
(and its material/light colour) that the extension reads or writes.
`rotation` is the stored Euler angle triple in radians and `quaternion` the
stored orientation quaternion; three.js keeps the two in sync, which the
operations below reproduce explicitly. `type` is `userData.type`. -/
structure SceneObject (α : Type) where
  type : String
  kind : NodeKind
  position : Vec3 α
  rotation : Vec3 α
  quaternion : Quat α
  scale : Vec3 α
  sharedMaterial : Bool
  color : ℕ
  intensity : α
  distance : α
  deriving DecidableEq

/-- A cannon.js rigid body as used by the extension: transform, velocities,
mass/classification and the sleep flag (`wakeUp` sets `awake`). -/
structure Body (α : Type) where
  id : ℕ
  position : Vec3 α
  quaternion : Quat α
  velocity : Vec3 α
  angularVelocity : Vec3 α
  mass : α
  btype : BodyType
  awake : Bool
  deriving DecidableEq

/-- Per-name physics metadata (`this.objectPhysData[name]`). -/
structure PhysData (α : Type) where
  enabled : Bool
  mass : α
  fixed : Bool
  friction : α
  bounciness : α
  deriving DecidableEq

/-- Quality configuration (`this.config`). -/
structure Config (α : Type) where
  shadows : ℕ
  renderDistance : α
  deriving DecidableEq

/-- A ray as configured on `this.raycaster` before an intersection query:
origin, direction, and the near/far clipping bounds. -/
structure Ray (α : Type) where
  origin : Vec3 α
  dir : Vec3 α
  near : α
  far : α
  deriving DecidableEq

/-- The opaque host math operations (three.js) that the extension calls,
together with the constant `pi` (`Math.PI`).  `raycast` abstracts
`raycaster.intersectObject`: the distance of the nearest intersection of the
given ray with the given object, if any. -/
structure ThreeMath (α : Type) where
  pi : α
  eulerToQuat : Vec3 α → Quat α
  quatToEuler : Quat α → Vec3 α
  eulerYXZToQuat : Vec3 α → Quat α
  applyQuat : Quat α → Vec3 α → Vec3 α
  normalize : Vec3 α → Vec3 α
  lookAtQuat : Vec3 α → Vec3 α → Quat α
  rotateYPi : Quat α → Quat α
  raycast : Ray α → SceneObject α → Option α
  sqrt : α → α

/-- One entry of the serialized scene array produced by `getSceneJSON` and
consumed by `loadSceneJSON`.  `scale` is optional because the loader guards
it with `if (item.scale)`; `color` is a plain number because the dump always
emits one, and the loader's `if (item.color)` truthiness test is modelled as
a test against `0`. -/
structure SceneEntry (α : Type) where
  name : String
  type : String
  pos : Vec3 α
  rot : Vec3 α
  scale : Option (Vec3 α)
  color : ℕ
  lightProps : Option (α × α)
  physics : Option (PhysData α)
  deriving DecidableEq

/-- A malformed iterable item, at the granularity of the loop body's two
unguarded accesses.  Reading `.type` / `.name` off any item never throws in
JS (a missing property reads as `undefined`, which the registry coerces to
the key string; the model carries the resulting strings), so
`createObject(item.type, item.name)` always runs.  The first unguarded
access afterwards is `item.pos.x`, which throws when the item has no `pos`
(`noPos`: e.g. the array element `42`, or an object without `pos`); if
`pos` reads as a numeric vector, the next unguarded access `item.rot.x`
throws when the item has no `rot` (`noRot`: the position has already been
applied to the created object).  The remaining accesses (`scale`, `color`,
`physics`) are all truthiness-guarded and cannot throw. -/
inductive BadItem (α : Type) where
  | noPos (type name : String)
  | noRot (type name : String) (pos : Vec3 α)
  deriving DecidableEq

/-- The possible outcomes of `JSON.parse` on the argument of
`loadSceneJSON`, at the granularity the control flow distinguishes:
the text fails to parse (`JSON.parse` throws, caught before anything else
runs); it parses but is not iterable (the `for..of` throws, caught after
the clear); it is an iterable of well-formed entries (the whole loop runs);
or it is an iterable whose first malformed item is `bad`, preceded by the
well-formed prefix `good` — the loop loads the prefix, runs the malformed
item's body up to its throwing access, and the exception aborts the loop,
so the trailing items `rest` are never reached (their shape is irrelevant
to the result). -/
inductive SceneJSON (α : Type) where
  | badText
  | nonIterable
  | entries (items : List (SceneEntry α))
  | entriesThenBad (good : List (SceneEntry α)) (bad : BadItem α)
      (rest : List (SceneEntry α))

/-- The mutable state of the `Peng3D` class instance: the three name-keyed
registries, world membership (list of body ids) and the id-to-name map, the
cannon id counter, the physics clock, the coalesced-render flag, the active
camera and the quality configuration. -/
structure Peng3DState (α : Type) where
  objects : List (String × SceneObject α)
  physicsBodies : List (String × Body α)
  objectPhysData : List (String × PhysData α)
  worldBodies : List ℕ
  bodyToName : List (ℕ × String)
  nextBodyId : ℕ
  lastPhysTime : α
  renderPending : Bool
  activeCamera : Option String
  config : Config α
  deriving DecidableEq

/-- Lookup in an association list (JS property read `m[k]`). -/
def lookupK {κ β : Type} [DecidableEq κ] (k : κ) : List (κ × β) → Option β
  | [] => none
  | p :: rest => if p.1 = k then some p.2 else lookupK k rest

/-- In-place update of an existing key (JS assignment `m[k] = v` to a key
that is already present keeps its position in insertion order). -/
def setK {κ β : Type} [DecidableEq κ] (k : κ) (v : β) (l : List (κ × β)) :
    List (κ × β) :=
  l.map (fun p => if p.1 = k then (k, v) else p)

/-- Key removal (JS `delete m[k]`). -/
def eraseK {κ β : Type} [DecidableEq κ] (k : κ) : List (κ × β) → List (κ × β)
  | [] => []
  | p :: rest => if p.1 = k then eraseK k rest else p :: eraseK k rest

/-- JS assignment `m[k] = v`: overwrite in place when present, append when
absent. -/
def upsertK {κ β : Type} [DecidableEq κ] (k : κ) (v : β) (l : List (κ × β)) :
    List (κ × β) :=
  if (lookupK k l).isSome then setK k v l else l ++ [(k, v)]

/-- Number of entries stored under a key. -/
def countK {κ β : Type} [DecidableEq κ] (k : κ) : List (κ × β) → ℕ
  | [] => 0
  | p :: rest => (if p.1 = k then 1 else 0) + countK k rest

section Operations

variable {α : Type} [LinearOrderedField α]

/-- Names of the five shared mesh geometries (`this._sharedGeometries`). -/
def sharedGeometryNames : List String :=
  ["Cube", "Sphere", "Cone", "Cylinder", "Donut"]

/-- The initial per-instance state built by the constructor and
`_ensureInit` (empty registries, physics clock at its uninitialized value
`0`, no active camera, default quality configuration). -/
def initialState (α : Type) [LinearOrderedField α] : Peng3DState α :=
  { objects := [],
    physicsBodies := [],
    objectPhysData := [],
    worldBodies := [],
    bodyToName := [],
    nextBodyId := 0
    lastPhysTime := 0
    renderPending := false,
    activeCamera := none,
    config := { shadows := 1, renderDistance := 100 } }

/-- Model of `_requestRender`: mark a render as pending.  The deferred
`requestAnimationFrame` callback that later produces the frame and clears
the flag is outside the state transition. -/
def requestRender (s : Peng3DState α) : Peng3DState α :=
  { s with renderPending := true }

/-- Model of `_updatePhysicsTransform(name)`: when `name` has both an
object and a body, overwrite the body's position/quaternion with the
object's, zero both velocities, and wake the body. -/
def _updatePhysicsTransform (name : String) (s : Peng3DState α) :
    Peng3DState α :=
  match lookupK name s.physicsBodies, lookupK name s.objects with
  | some b, some o =>
    { s with
        physicsBodies :=
        setK name
          { b with position := o.position,
                   quaternion := o.quaternion,
                   velocity := ⟨0, 0, 0⟩,
                   angularVelocity := ⟨0, 0, 0⟩,
                   awake := true }
          s.physicsBodies }
  | _, _ => s

/-- Model of `setPos(args)`: absolute position set, then transform sync and
a render request; unknown names are a silent no-op. -/
def setPos (name : String) (x y z : α) (s : Peng3DState α) : Peng3DState α :=
  match lookupK name s.objects with
  | none => s
  | some o =>
    requestRender (_updatePhysicsTransform name
      { s with objects := setK name { o with position := ⟨x, y, z⟩ } s.objects })

/-- Model of `changePosition(args)`: relative position change. -/
def changePosition (name : String) (x y z : α) (s : Peng3DState α) :
    Peng3DState α :=
  match lookupK name s.objects with
  | none => s
  | some o =>
    requestRender (_updatePhysicsTransform name
      { s with
          objects :=
          setK name
            { o with position :=
                ⟨o.position.x + x, o.position.y + y, o.position.z + z⟩ }
            s.objects })

/-- Model of `moveObject(args)`: local-axis move; the offset
`(x, y, -z)` is rotated by the object's current quaternion before being
added to the position. -/
def moveObject (M : ThreeMath α) (name : String) (x y z : α)
    (s : Peng3DState α) : Peng3DState α :=
  match lookupK name s.objects with
  | none => s
  | some o =>
    let v := M.applyQuat o.quaternion ⟨x, y, -z⟩
    requestRender (_updatePhysicsTransform name
      { s with
          objects :=
          setK name
            { o with position :=
                ⟨o.position.x + v.x, o.position.y + v.y, o.position.z + v.z⟩ }
            s.objects })

/-- Model of `setRot(args)`: absolute Euler rotation set; the public
arguments are degrees and are scaled by `π / 180` before being stored.
Setting `obj.rotation` also updates the synced quaternion
(`setFromEuler`). -/
def setRot (M : ThreeMath α) (name : String) (x y z : α)
    (s : Peng3DState α) : Peng3DState α :=
  match lookupK name s.objects with
  | none => s
  | some o =>
    let d2r := M.pi / 180
    let r : Vec3 α := ⟨x * d2r, y * d2r, z * d2r⟩
    requestRender (_updatePhysicsTransform name
      { s with
          objects :=
          setK name { o with rotation := r, quaternion := M.eulerToQuat r }
            s.objects })

/-- Model of `changeRotation(args)`: read the current orientation back as
an Euler triple, add the (degree-scaled) deltas, and write the result into
the quaternion; the synced `rotation` is recomputed from the new
quaternion. -/
def changeRotation (M : ThreeMath α) (name : String) (x y z : α)
    (s : Peng3DState α) : Peng3DState α :=
  match lookupK name s.objects with
  | none => s
  | some o =>
    let d2r := M.pi / 180
    let e := M.quatToEuler o.quaternion
    let q := M.eulerToQuat ⟨e.x + x * d2r, e.y + y * d2r, e.z + z * d2r⟩
    requestRender (_updatePhysicsTransform name
      { s with
          objects :=
          setK name { o with quaternion := q, rotation := M.quatToEuler q }
            s.objects })

/-- Model of `setRotYawPitch(args)`: set orientation from a YXZ-order Euler
triple `(pitch·d2r, -yaw·d2r, 0)`. -/
def setRotYawPitch (M : ThreeMath α) (name : String) (yaw pitch : α)
    (s : Peng3DState α) : Peng3DState α :=
  match lookupK name s.objects with
  | none => s
  | some o =>
    let d2r := M.pi / 180
    let q := M.eulerYXZToQuat ⟨pitch * d2r, -(yaw * d2r), 0⟩
    requestRender (_updatePhysicsTransform name
      { s with
          objects :=
          setK name { o with quaternion := q, rotation := M.quatToEuler q }
            s.objects })

/-- Model of `lookAtObject(args)`: orient toward the target's position via
`lookAt`, then a half-turn about the local Y axis (`rotateY(π)`); a no-op
when either name is unknown. -/
def lookAtObject (M : ThreeMath α) (name target : String)
    (s : Peng3DState α) : Peng3DState α :=
  match lookupK name s.objects, lookupK target s.objects with
  | some o, some t =>
    let q := M.rotateYPi (M.lookAtQuat o.position t.position)
    requestRender (_updatePhysicsTransform name
      { s with
          objects :=
          setK name { o with quaternion := q, rotation := M.quatToEuler q }
            s.objects })
  | _, _ => s

/-- Model of `setScale(args)`: scale set; note that no physics-transform
sync is performed here, matching the source. -/
def setScale (name : String) (x y z : α) (s : Peng3DState α) :
    Peng3DState α :=
  match lookupK name s.objects with
  | none => s
  | some o =>
    requestRender
      { s with objects := setK name { o with scale := ⟨x, y, z⟩ } s.objects }

/-- Model of `setColor(args)`: meshes clone the shared default material on
first colour edit and tint the clone; lights tint their own colour; the
camera branch changes nothing.  A render is requested in every case. -/
def setColor (name : String) (color : ℕ) (s : Peng3DState α) :
    Peng3DState α :=
  match lookupK name s.objects with
  | none => s
  | some o =>
    match o.kind with
    | NodeKind.mesh =>
      requestRender
        { s with
            objects :=
            setK name { o with sharedMaterial := false, color := color }
              s.objects }
    | NodeKind.light =>
      requestRender
        { s with objects := setK name { o with color := color } s.objects }
    | NodeKind.camera => requestRender s

/-- Model of `_disposeObject(obj, name)`: a no-op when the object is
missing; otherwise the linked body (if any) is removed from the world and
from the id map, the body and phys-data registry entries are deleted, and
the object registry entry is erased.  Scene-graph detachment and
geometry/material disposal carry no state in this model. -/
def _disposeObject (name : String) (s : Peng3DState α) : Peng3DState α :=
  match lookupK name s.objects with
  | none => s
  | some _ =>
    let s1 :=
      match lookupK name s.physicsBodies with
      | some b =>
        { s with
            worldBodies := s.worldBodies.filter (fun i => i ≠ b.id),
                 bodyToName := eraseK b.id s.bodyToName,
                 physicsBodies := eraseK name s.physicsBodies,
                 objectPhysData := eraseK name s.objectPhysData }
      | none => s
    { s1 with objects := eraseK name s1.objects }

/-- The node kind `createObject` derives from the type string: a shared
geometry name yields a mesh, `Light` / `Camera` yield those nodes, and any
other string falls back to a Cube mesh. -/
def freshKind (type : String) : NodeKind :=
  if type ∈ sharedGeometryNames then NodeKind.mesh
  else if type = "Light" then NodeKind.light
  else if type = "Camera" then NodeKind.camera
  else NodeKind.mesh

/-- The node `createObject` builds for a type string: default transform,
shared default material (white), and the default point-light parameters
(`PointLight(0xffffff, 1, 100)`) when the type is a light. -/
def freshObject (α : Type) [LinearOrderedField α] (type : String) :
    SceneObject α :=
  { type := type,
    kind := freshKind type,
    position := ⟨0, 0, 0⟩,
    rotation := ⟨0, 0, 0⟩,
    quaternion := ⟨0, 0, 0, 1⟩,
    scale := ⟨1, 1, 1⟩,
    sharedMaterial := true,
    color := 16777215,
    intensity := if freshKind type = NodeKind.light then 1 else 0,
    distance := if freshKind type = NodeKind.light then 100 else 0 }

/-- Model of `createObject(args)`: if the name exists, dispose the old
object (and its body) first, then register a fresh node for the type under
the name (at the end of insertion order) and request a render.
`userData.type` always records the given type string. -/
def createObject (type name : String) (s : Peng3DState α) : Peng3DState α :=
  let s0 :=
    match lookupK name s.objects with
    | some _ => _disposeObject name s
    | none => s
  requestRender { s0 with objects := s0.objects ++ [(name, freshObject α type)] }

/-- Model of `deleteObject(args)`. -/
def deleteObject (name : String) (s : Peng3DState α) : Peng3DState α :=
  requestRender (_disposeObject name s)

/-- Model of `deleteAllObjects()`: dispose every currently registered name
(the key snapshot is taken up front, as `Object.keys(..).forEach` does),
clear the active camera, reset the physics clock to its uninitialized
value `0`, and request a render. -/
def deleteAllObjects (s : Peng3DState α) : Peng3DState α :=
  let names := s.objects.map (fun p => p.1)
  let s1 := names.foldl (fun acc n => _disposeObject n acc) s
  { s1 with activeCamera := none, lastPhysTime := 0, renderPending := true }

/-- Model of `enablePhysics(args)`: only for existing mesh objects.  Any
existing body for the name is removed from the world and the id map; a
fresh dynamic body of mass 1 is created at the object's transform with the
next cannon id, added to the world and both registries, and default
physics metadata is recorded.  Collision-shape construction is omitted
(no stated property concerns shapes). -/
def enablePhysics (name : String) (s : Peng3DState α) : Peng3DState α :=
  match lookupK name s.objects with
  | none => s
  | some o =>
    if o.kind = NodeKind.mesh then
      let s1 :=
        match lookupK name s.physicsBodies with
        | some old =>
          { s with
              worldBodies := s.worldBodies.filter (fun i => i ≠ old.id),
                   bodyToName := eraseK old.id s.bodyToName }
        | none => s
      let body : Body α :=
        { id := s.nextBodyId,
          position := o.position,
          quaternion := o.quaternion,
          velocity := ⟨0, 0, 0⟩,
          angularVelocity := ⟨0, 0, 0⟩,
          mass := 1
          btype := BodyType.dynamic,
          awake := true }
      { s1 with
          physicsBodies := upsertK name body s1.physicsBodies,
          worldBodies := s1.worldBodies ++ [body.id],
          bodyToName := upsertK body.id name s1.bodyToName,
          objectPhysData :=
            upsertK name
              { enabled := true, mass := 1, fixed := false,
                friction := 3 / 10, bounciness := 3 / 10 }
              s1.objectPhysData,
          nextBodyId := s.nextBodyId + 1 }
    else s

/-- Model of `stepPhysics()`, parameterized by the rigid-body solver
`solve` (cannon's `world.step(fixedTick, dt, maxSubSteps)`, acting on the
registered bodies) and the current wall-clock time `now`
(`performance.now()`, in milliseconds).  On the very first call
(`_lastPhysTime === 0`) only the clock is recorded; afterwards the solver
is advanced with fixed tick `1/60`, budget `dt = (now - last)/1000`
seconds, and a cap of `10` catch-up sub-steps, and each body's resulting
position/quaternion is copied into its linked object (updating the
object's synced Euler rotation), followed by a render request. -/
def stepPhysics (M : ThreeMath α)
    (solve : α → α → ℕ → List (String × Body α) → List (String × Body α))
    (now : α) (s : Peng3DState α) : Peng3DState α :=
  if s.lastPhysTime = 0 then { s with lastPhysTime := now }
  else
    let dt := (now - s.lastPhysTime) / 1000
    let bodies := solve (1 / 60) dt 10 s.physicsBodies
    let objs :=
      s.objects.map (fun p =>
        match lookupK p.1 bodies with
        | some b =>
          (p.1, { p.2 with position := b.position,
                           quaternion := b.quaternion,
                           rotation := M.quatToEuler b.quaternion })
        | none => p)
    requestRender
      { s with lastPhysTime := now, physicsBodies := bodies, objects := objs }

/-- Model of `pushObject(args)`: wake the body and apply a central impulse
(`applyImpulse` at the body's own position changes only the linear
velocity, by the impulse scaled with the inverse mass). -/
def pushObject (name : String) (x y z : α) (s : Peng3DState α) :
    Peng3DState α :=
  match lookupK name s.physicsBodies with
  | none => s
  | some b =>
    let invMass := if b.mass = 0 then 0 else b.mass⁻¹
    { s with
        physicsBodies :=
        setK name
          { b with awake := true,
                   velocity :=
                     ⟨b.velocity.x + x * invMass, b.velocity.y + y * invMass,
                      b.velocity.z + z * invMass⟩ }
          s.physicsBodies }

/-- Model of `setPhysProp(args)`: `fixed` toggles mass 0 / static and zeroes
the linear velocity; `friction` / `bounciness` update the metadata (the
contact-material bookkeeping carries no state in this model).  The body is
woken in every case.  A missing body is a silent no-op. -/
def setPhysProp (name prop : String) (val : α) (s : Peng3DState α) :
    Peng3DState α :=
  match lookupK name s.physicsBodies with
  | none => s
  | some b =>
    match lookupK name s.objectPhysData with
    | none => s
    | some pd =>
      if prop = "fixed" then
        let fixed := val = 1
        { s with
            objectPhysData :=
              setK name { pd with fixed := fixed } s.objectPhysData,
            physicsBodies :=
              setK name
                { b with mass := if fixed then 0 else pd.mass,
                         btype := if fixed then BodyType.static
                                  else BodyType.dynamic,
                         velocity := ⟨0, 0, 0⟩,
                         awake := true }
                s.physicsBodies }
      else
        let pd1 :=
          { pd with friction := if prop = "friction" then val else pd.friction,
                    bounciness :=
                      if prop = "bounciness" then val else pd.bounciness }
        { s with
            objectPhysData := setK name pd1 s.objectPhysData,
                 physicsBodies := setK name { b with awake := true }
                   s.physicsBodies }

/-- The ray `getLookingAt` configures on the raycaster: origin at the
object's position, direction the local `-Z` axis rotated by the object's
quaternion (normalized), near bound the constant `0.1`, far bound the
current render distance. -/
def lookRay (M : ThreeMath α) (o : SceneObject α) (s : Peng3DState α) :
    Ray α :=
  { origin := o.position,
    dir := M.normalize (M.applyQuat o.quaternion ⟨0, 0, -1⟩),
    near := 1 / 10,
    far := s.config.renderDistance }

/-- The candidate targets of `getLookingAt`: every registered mesh object
other than the source (lights and cameras are excluded). -/
def lookTargets (name : String) (s : Peng3DState α) :
    List (String × SceneObject α) :=
  s.objects.filter (fun p => p.1 ≠ name ∧ p.2.kind = NodeKind.mesh)

/-- The intersection results of `getLookingAt`: for each candidate, its
nearest hit distance (if the ray intersects it) paired with its name. -/
def lookHits (M : ThreeMath α) (name : String) (o : SceneObject α)
    (s : Peng3DState α) : List (α × String) :=
  (lookTargets name s).filterMap
    (fun p => (M.raycast (lookRay M o s) p.2).map (fun d => (d, p.1)))

/-- The first element of the hit list sorted ascending by distance (what
`intersectObjects` + `[0]` selects): the minimum-distance hit, the earliest
listed on ties. -/
def nearestHit : List (α × String) → Option (α × String)
  | [] => none
  | h :: t =>
    match nearestHit t with
    | none => some h
    | some m => if m.1 < h.1 then some m else some h

/-- Model of `getLookingAt(args)`: cast the forward ray of the named object
against all other mesh objects and report the name of the nearest
intersected one, or the empty string. -/
def getLookingAt (M : ThreeMath α) (name : String) (s : Peng3DState α) :
    String :=
  match lookupK name s.objects with
  | none => ""
  | some o =>
    match nearestHit (lookHits M name o s) with
    | some m => m.2
    | none => ""

/-- Squared Euclidean distance between two points (the radicand of
`Vector3.distanceTo`). -/
def distSq (a b : Vec3 α) : α :=
  (a.x - b.x) * (a.x - b.x) + (a.y - b.y) * (a.y - b.y) +
    (a.z - b.z) * (a.z - b.z)

/-- Model of `getDistanceBetween(args)`: the number `0` when either name is
unknown, otherwise `obj1.position.distanceTo(obj2.position)`, the square
root of the squared Euclidean distance. -/
def getDistanceBetween (M : ThreeMath α) (n1 n2 : String)
    (s : Peng3DState α) : α :=
  match lookupK n1 s.objects, lookupK n2 s.objects with
  | some o1, some o2 => M.sqrt (distSq o1.position o2.position)
  | _, _ => 0

/-- Model of one iteration of the `loadSceneJSON` loop body for a
well-formed entry: create the object, apply position / rotation (radians,
updating the synced quaternion) / scale, apply the colour only when the
serialized colour number is truthy (nonzero), and re-enable physics plus
the fixed flag when the entry carries an enabled physics record. -/
def loadEntry (M : ThreeMath α) (s : Peng3DState α) (item : SceneEntry α) :
    Peng3DState α :=
  let s1 := createObject item.type item.name s
  match lookupK item.name s1.objects with
  | none => s1
  | some o =>
    let o1 :=
      { o with position := item.pos,
               rotation := item.rot,
               quaternion := M.eulerToQuat item.rot,
               scale := (item.scale).getD o.scale }
    let s2 := { s1 with objects := setK item.name o1 s1.objects }
    let s3 := if item.color ≠ 0 then setColor item.name item.color s2 else s2
    match item.physics with
    | some p =>
      if p.enabled then
        let s4 := enablePhysics item.name s3
        if p.fixed then setPhysProp item.name "fixed" 1 s4 else s4
      else s3
    | none => s3

/-- Model of `getSceneJSON()` (the serializer's `dump`): one entry per
registered object, carrying the name, `userData.type`, position, the stored
Euler rotation `obj.rotation` (radians), scale, the material/light colour
(cameras dump the constant white), light parameters for lights, and the
physics metadata when present. -/
def getSceneJSON (s : Peng3DState α) : List (SceneEntry α) :=
  s.objects.map (fun p =>
    { name := p.1,
      type := p.2.type,
      pos := p.2.position,
      rot := p.2.rotation,
      scale := some p.2.scale,
      color :=
        match p.2.kind with
        | NodeKind.camera => 16777215
        | _ => p.2.color
      lightProps :=
        match p.2.kind with
        | NodeKind.light => some (p.2.intensity, p.2.distance)
        | _ => none
      physics := lookupK p.1 s.objectPhysData })

/-- Model of the `loadSceneJSON` loop body run on its first malformed item,
up to the access that throws: `createObject` always runs (so the item's
name is registered, replacing any prefix-loaded object of that name); for
`noRot` the position has additionally been applied before `item.rot.x`
throws.  The thrown exception propagates to the surrounding catch, so
nothing after the throwing access runs. -/
def loadBadItem (s : Peng3DState α) : BadItem α → Peng3DState α
  | BadItem.noPos type name => createObject type name s
  | BadItem.noRot type name pos =>
    let s1 := createObject type name s
    match lookupK name s1.objects with
    | none => s1
    | some o =>
      { s1 with objects := setK name { o with position := pos } s1.objects }

/-- Model of `loadSceneJSON(args)`: `JSON.parse` runs first, so unparsable
text is caught before anything is mutated; a parsed but non-iterable value
fails at the `for..of` after `deleteAllObjects()` has already run; an
iterable of well-formed entries is loaded one by one after the clear,
followed by a render request; an iterable with a malformed item loads the
well-formed prefix, runs the malformed item's body up to its throwing
access, and aborts — the trailing items and the final render request are
skipped (`createObject` has already requested a render).  The surrounding
`try/catch` swallows every failure. -/
def loadSceneJSON (M : ThreeMath α) (input : SceneJSON α)
    (s : Peng3DState α) : Peng3DState α :=
  match input with
  | SceneJSON.badText => s
  | SceneJSON.nonIterable => deleteAllObjects s
  | SceneJSON.entries items =>
    requestRender (items.foldl (loadEntry M) (deleteAllObjects s))
  | SceneJSON.entriesThenBad good bad _ =>
    loadBadItem (good.foldl (loadEntry M) (deleteAllObjects s)) bad

/-- The transform-sync invariant at a name: the linked body's position and
orientation equal the object's, both velocities are zero and the body is
awake. -/
def syncedAt (s : Peng3DState α) (name : String) : Prop :=
  ∃ o b, lookupK name s.objects = some o ∧
    lookupK name s.physicsBodies = some b ∧
    b.position = o.position ∧ b.quaternion = o.quaternion ∧
    b.velocity = ⟨0, 0, 0⟩ ∧ b.angularVelocity = ⟨0, 0, 0⟩ ∧ b.awake = true

/-- Equality of every state component except the render-pending flag: the
registries, the physics world and id map, the id counter, the physics
clock, the active camera and the configuration. -/
def coreEq (s s' : Peng3DState α) : Prop :=
  s'.objects = s.objects ∧ s'.physicsBodies = s.physicsBodies ∧
    s'.objectPhysData = s.objectPhysData ∧ s'.worldBodies = s.worldBodies ∧
    s'.bodyToName = s.bodyToName ∧ s'.nextBodyId = s.nextBodyId ∧
    s'.lastPhysTime = s.lastPhysTime ∧ s'.activeCamera = s.activeCamera ∧
    s'.config = s.config

/-- A host-math record with the given `pi` and inert conversions, used to
instantiate universally quantified theorems at concrete inputs. -/
def piOnly (p : α) : ThreeMath α :=
  { pi := p,
    eulerToQuat := fun _ => ⟨0, 0, 0, 1⟩,
    quatToEuler := fun _ => ⟨0, 0, 0⟩,
    eulerYXZToQuat := fun _ => ⟨0, 0, 0, 1⟩,
    applyQuat := fun _ v => v,
    normalize := fun v => v,
    lookAtQuat := fun _ _ => ⟨0, 0, 0, 1⟩,
    rotateYPi := fun q => q,
    raycast := fun _ _ => none,
    sqrt := fun _ => 0 }

/-- A host-math record whose raycast reports a hit at distance equal to the
target object's `x` position, for exercising `getLookingAt` concretely. -/
def hitAtX (p : α) : ThreeMath α :=
  { piOnly p with raycast := fun _ o => some o.position.x }

/-- The rational-scalar inert host-math record used by the witnesses. -/
def Mq : ThreeMath ℚ := piOnly 3

/-- The solver used by witnesses: leaves every body untouched. -/
def idSolve : ℚ → ℚ → ℕ → List (String × Body ℚ) → List (String × Body ℚ) :=
  fun _ _ _ l => l

/-- The cube mesh object that `createObject "Cube"` registers. -/
def oA : SceneObject ℚ :=
  { type := "Cube",
    kind := NodeKind.mesh,
    position := ⟨0, 0, 0⟩,
    rotation := ⟨0, 0, 0⟩,
    quaternion := ⟨0, 0, 0, 1⟩,
    scale := ⟨1, 1, 1⟩,
    sharedMaterial := true,
    color := 16777215,
    intensity := 0,
    distance := 0 }

/-- The first body `enablePhysics` creates (cannon id 0, mass 1, dynamic,
at the origin). -/
def bA : Body ℚ :=
  { id := 0,
    position := ⟨0, 0, 0⟩,
    quaternion := ⟨0, 0, 0, 1⟩,
    velocity := ⟨0, 0, 0⟩,
    angularVelocity := ⟨0, 0, 0⟩,
    mass := 1,
    btype := BodyType.dynamic,
    awake := true }

/-- Example state: a cube named `A` with physics enabled. -/
def sPhys : Peng3DState ℚ :=
  enablePhysics "A" (createObject "Cube" "A" (initialState ℚ))

/-- Example state: cubes `A` and `B`, physics enabled on `A`. -/
def sAB : Peng3DState ℚ :=
  createObject "Cube" "B" sPhys

/-- Example state: a cube named `A` whose colour has been set to black
(`0x000000`). -/
def sBlack : Peng3DState ℚ :=
  setColor "A" 0 (createObject "Cube" "A" (initialState ℚ))

/-- Example state: two cubes at distance 5 along a 3-4-5 triangle, plus the
name `C` unregistered. -/
def sDist : Peng3DState ℚ :=
  setPos "B" 3 4 0 (createObject "Cube" "B" (createObject "Cube" "A" (initialState ℚ)))

/-- The cube at position `(3, 4, 0)` registered under `B` in `sDist`. -/
def oB : SceneObject ℚ :=
  { oA with position := ⟨3, 4, 0⟩ }

/-- Example state: `sPhys` after one warm-up physics step at time 5 (so the
physics clock is nonzero). -/
def sStepped : Peng3DState ℚ :=
  stepPhysics Mq idSolve 5 sPhys

end Operations

section AListLemmas

variable {κ β : Type} [DecidableEq κ]

theorem lookupK_setK_self (k : κ) (v : β) :
    ∀ l : List (κ × β), lookupK k (setK k v l) = (lookupK k l).map (fun _ => v)
  | [] => rfl
  | p :: rest => by
    have ih := lookupK_setK_self k v rest
    simp only [setK] at ih ⊢
    by_cases h : p.1 = k
    · simp [lookupK, h]
    · simp [lookupK, h, ih]

theorem lookupK_setK_ne {k k' : κ} (v : β) (h : k' ≠ k) :
    ∀ l : List (κ × β), lookupK k' (setK k v l) = lookupK k' l
  | [] => rfl
  | p :: rest => by
    have ih := lookupK_setK_ne v h rest
    simp only [setK] at ih ⊢
    by_cases hp : p.1 = k
    · have hk : ¬ (k = k') := fun hkk => h (hkk.symm)
      simp [lookupK, hp, hk, ih]
    · simp [lookupK, hp, ih]

theorem lookupK_eraseK_self (k : κ) :
    ∀ l : List (κ × β), lookupK k (eraseK k l) = none
  | [] => rfl
  | p :: rest => by
    have ih := lookupK_eraseK_self k rest
    by_cases hp : p.1 = k
    · simp [eraseK, lookupK, hp, ih]
    · simp [eraseK, lookupK, hp, ih]

theorem lookupK_eraseK_ne {k k' : κ} (h : k' ≠ k) :
    ∀ l : List (κ × β), lookupK k' (eraseK k l) = lookupK k' l
  | [] => rfl
  | p :: rest => by
    have ih := lookupK_eraseK_ne h rest
    have hk : ¬ k = k' := fun hh => h hh.symm
    by_cases hp : p.1 = k
    · have hpk : p.1 ≠ k' := fun hh => h (hh ▸ hp)
      simp [eraseK, lookupK, hp, hpk, hk, ih]
    · simp [eraseK, lookupK, hp, ih]

theorem eraseK_of_lookupK_none {k : κ} :
    ∀ {l : List (κ × β)}, lookupK k l = none → eraseK k l = l
  | [], _ => rfl
  | p :: rest, h => by
    by_cases hp : p.1 = k
    · simp [lookupK, hp] at h
    · simp [lookupK, hp] at h
      have ih := eraseK_of_lookupK_none (k := k) (l := rest) h
      simp [eraseK, hp, ih]

theorem lookupK_append (k : κ) :
    ∀ l₁ l₂ : List (κ × β),
      lookupK k (l₁ ++ l₂) =
        match lookupK k l₁ with
        | some v => some v
        | none => lookupK k l₂
  | [], _ => by simp [lookupK]
  | p :: rest, l₂ => by
    by_cases hp : p.1 = k
    · simp [lookupK, hp]
    · simpa [lookupK, hp] using lookupK_append k rest l₂

theorem lookupK_upsertK_self (k : κ) (v : β) (l : List (κ × β)) :
    lookupK k (upsertK k v l) = some v := by
  unfold upsertK
  by_cases h : (lookupK k l).isSome
  · obtain ⟨w, hw⟩ := Option.isSome_iff_exists.mp h
    simp [h, lookupK_setK_self, hw]
  · have hn : lookupK k l = none := Option.not_isSome_iff_eq_none.mp h
    simp [h, lookupK_append, hn, lookupK]

theorem lookupK_upsertK_ne {k k' : κ} (v : β) (h : k' ≠ k)
    (l : List (κ × β)) : lookupK k' (upsertK k v l) = lookupK k' l := by
  unfold upsertK
  have hk : ¬ k = k' := fun hh => h hh.symm
  by_cases hs : (lookupK k l).isSome
  · simp [hs, lookupK_setK_ne v h]
  · simp [hs, lookupK_append, h, hk, lookupK]
    cases lookupK k' l <;> simp

theorem countK_eraseK_self (k : κ) (l : List (κ × β)) :
    countK k (eraseK k l) = 0 := by
  induction l with
  | nil => rfl
  | cons p rest ih =>
    by_cases hp : p.1 = k
    · simpa [eraseK, countK, hp] using ih
    · simpa [eraseK, countK, hp] using ih

theorem countK_append_single_self (k : κ) (v : β) (l : List (κ × β)) :
    countK k (l ++ [(k, v)]) = countK k l + 1 := by
  induction l with
  | nil => simp [countK]
  | cons p rest ih =>
    by_cases hp : p.1 = k
    · simp [countK, hp, ih]
      ring
    · simp [countK, hp, ih]

theorem lookupK_mem {k : κ} :
    ∀ {l : List (κ × β)} {v : β}, lookupK k l = some v → (k, v) ∈ l
  | [], _, h => by simp [lookupK] at h
  | p :: rest, v, h => by
    obtain ⟨a, b⟩ := p
    by_cases hp : a = k
    · simp [lookupK, hp] at h
      subst hp
      subst h
      exact List.mem_cons_self _ _
    · simp [lookupK, hp] at h
      exact List.mem_cons_of_mem _ (lookupK_mem h)

theorem eraseK_append (k : κ) :
    ∀ l₁ l₂ : List (κ × β), eraseK k (l₁ ++ l₂) = eraseK k l₁ ++ eraseK k l₂
  | [], l₂ => rfl
  | p :: rest, l₂ => by
    by_cases hp : p.1 = k
    · simp [eraseK, hp, eraseK_append k rest l₂]
    · simp [eraseK, hp, eraseK_append k rest l₂]

theorem mem_eraseK {p : κ × β} {k : κ} :
    ∀ {l : List (κ × β)}, p ∈ eraseK k l → p ∈ l ∧ p.1 ≠ k
  | [], h => by simp [eraseK] at h
  | q :: rest, h => by
    by_cases hq : q.1 = k
    · simp [eraseK, hq] at h
      obtain ⟨h1, h2⟩ := mem_eraseK h
      exact ⟨List.mem_cons_of_mem _ h1, h2⟩
    · simp [eraseK, hq] at h
      rcases h with h | h
      · subst h
        exact ⟨List.mem_cons_self _ _, hq⟩
      · obtain ⟨h1, h2⟩ := mem_eraseK h
        exact ⟨List.mem_cons_of_mem _ h1, h2⟩

theorem foldl_eraseK_eq_nil :
    ∀ (names : List κ) (l : List (κ × β)), (∀ p ∈ l, p.1 ∈ names) →
      names.foldl (fun acc n => eraseK n acc) l = []
  | [], l, h => by
    cases l with
    | nil => rfl
    | cons p t => exact absurd (h p (List.mem_cons_self p t)) (by simp)
  | n :: rest, l, h => by
    simp only [List.foldl_cons]
    refine foldl_eraseK_eq_nil rest (eraseK n l) ?_
    intro p hp
    obtain ⟨hpl, hpn⟩ := mem_eraseK hp
    have hmem := h p hpl
    simp only [List.mem_cons] at hmem
    rcases hmem with h1 | h2
    · exact absurd h1 hpn
    · exact h2

theorem not_mem_filter_ne_self (i : ℕ) (l : List ℕ) :
    i ∉ l.filter (fun j => j ≠ i) := by
  intro h
  have := (List.mem_filter.mp h).2
  simp at this

end AListLemmas

section StateLemmas

variable {α : Type} [LinearOrderedField α]

theorem dispose_objects_eq (name : String) (s : Peng3DState α) :
    (_disposeObject name s).objects = eraseK name s.objects := by
  unfold _disposeObject
  cases h : lookupK name s.objects with
  | none => simp [eraseK_of_lookupK_none h]
  | some o => cases hb : lookupK name s.physicsBodies <;> simp

theorem foldDispose_objects :
    ∀ (names : List String) (s : Peng3DState α),
      (names.foldl (fun acc n => _disposeObject n acc) s).objects =
        names.foldl (fun l n => eraseK n l) s.objects
  | [], _ => rfl
  | n :: rest, s => by
    simp only [List.foldl_cons]
    rw [foldDispose_objects rest, dispose_objects_eq]

theorem deleteAllObjects_objects (s : Peng3DState α) :
    (deleteAllObjects s).objects = [] := by
  unfold deleteAllObjects
  simp only []
  rw [foldDispose_objects]
  exact foldl_eraseK_eq_nil _ _ (fun p hp => List.mem_map_of_mem _ hp)

theorem deleteAllObjects_lastPhysTime (s : Peng3DState α) :
    (deleteAllObjects s).lastPhysTime = 0 := by
  simp [deleteAllObjects]

theorem syncedAt_requestRender_update (name : String) (s : Peng3DState α)
    (o o1 : SceneObject α) (b : Body α)
    (ho : lookupK name s.objects = some o)
    (hb : lookupK name s.physicsBodies = some b) :
    syncedAt
      (requestRender (_updatePhysicsTransform name
        { s with objects := setK name o1 s.objects })) name := by
  have ho1 : lookupK name (setK name o1 s.objects) = some o1 := by
    rw [lookupK_setK_self, ho]
    rfl
  refine ⟨o1,
    { b with position := o1.position, quaternion := o1.quaternion,
             velocity := ⟨0, 0, 0⟩, angularVelocity := ⟨0, 0, 0⟩,
             awake := true }, ?_, ?_, rfl, rfl, rfl, rfl, rfl⟩
  · simp [_updatePhysicsTransform, requestRender, hb, ho1]
  · simp [_updatePhysicsTransform, requestRender, hb, ho1, lookupK_setK_self]

theorem createObject_objects_some (k name : String) (s : Peng3DState α)
    (o0 : SceneObject α) (ho : lookupK name s.objects = some o0) :
    (createObject k name s).objects =
      eraseK name s.objects ++ [(name, freshObject α k)] := by
  simp only [createObject, ho, requestRender, dispose_objects_eq]

theorem createObject_bodyParts_some_body (k name : String)
    (s : Peng3DState α) (o0 : SceneObject α) (b : Body α)
    (ho : lookupK name s.objects = some o0)
    (hb : lookupK name s.physicsBodies = some b) :
    (createObject k name s).physicsBodies = eraseK name s.physicsBodies ∧
    (createObject k name s).objectPhysData = eraseK name s.objectPhysData ∧
    (createObject k name s).worldBodies =
      s.worldBodies.filter (fun i => i ≠ b.id) ∧
    (createObject k name s).bodyToName = eraseK b.id s.bodyToName := by
  simp only [createObject, ho, requestRender, _disposeObject, hb]
  exact ⟨trivial, trivial, trivial, trivial⟩

theorem createObject_bodyParts_some_nobody (k name : String)
    (s : Peng3DState α) (o0 : SceneObject α)
    (ho : lookupK name s.objects = some o0)
    (hb : lookupK name s.physicsBodies = none) :
    (createObject k name s).physicsBodies = s.physicsBodies ∧
    (createObject k name s).objectPhysData = s.objectPhysData ∧
    (createObject k name s).worldBodies = s.worldBodies ∧
    (createObject k name s).bodyToName = s.bodyToName := by
  simp only [createObject, ho, requestRender, _disposeObject, hb]
  exact ⟨trivial, trivial, trivial, trivial⟩

theorem lookupK_createObject_self (k name : String) (s : Peng3DState α) :
    lookupK name (createObject k name s).objects =
      some (freshObject α k) := by
  cases ho : lookupK name s.objects with
  | none =>
    simp only [createObject, ho, requestRender]
    rw [lookupK_append, ho]
    simp [lookupK]
  | some o0 =>
    rw [createObject_objects_some k name s o0 ho, lookupK_append,
      lookupK_eraseK_self]
    simp [lookupK]

theorem lookupK_ne_nil {k : String} {l : List (String × SceneObject α)}
    {v : SceneObject α} (h : lookupK k l = some v) : l ≠ [] := by
  intro hnil
  rw [hnil] at h
  simp [lookupK] at h

theorem nearestHit_eq_none :
    ∀ {l : List (α × String)}, nearestHit l = none ↔ l = []
  | [] => by simp [nearestHit]
  | h :: t => by
    simp only [nearestHit]
    cases ht : nearestHit t with
    | none => simp
    | some m =>
      by_cases hlt : m.1 < h.1 <;> simp [hlt]

theorem nearestHit_mem :
    ∀ {l : List (α × String)} {m : α × String},
      nearestHit l = some m → m ∈ l
  | [], m, h => by simp [nearestHit] at h
  | p :: t, m, h => by
    simp only [nearestHit] at h
    cases ht : nearestHit t with
    | none =>
      rw [ht] at h
      simp at h
      subst h
      exact List.mem_cons_self _ _
    | some m' =>
      rw [ht] at h
      by_cases hlt : m'.1 < p.1
      · simp [hlt] at h
        subst h
        exact List.mem_cons_of_mem _ (nearestHit_mem ht)
      · simp [hlt] at h
        subst h
        exact List.mem_cons_self _ _

theorem nearestHit_min :
    ∀ {l : List (α × String)} {m : α × String},
      nearestHit l = some m → ∀ q ∈ l, m.1 ≤ q.1
  | [], m, h => by simp [nearestHit] at h
  | p :: t, m, h => by
    simp only [nearestHit] at h
    cases ht : nearestHit t with
    | none =>
      rw [ht] at h
      simp at h
      subst h
      intro q hq
      rcases List.mem_cons.mp hq with h1 | h2
      · rw [h1]
      · exact absurd (nearestHit_eq_none.mp ht ▸ h2) (List.not_mem_nil q)
    | some m' =>
      rw [ht] at h
      intro q hq
      rcases List.mem_cons.mp hq with h1 | h2
      · subst h1
        by_cases hlt : m'.1 < q.1
        · simp [hlt] at h
          subst h
          exact le_of_lt hlt
        · simp [hlt] at h
          subst h
          exact le_refl _
      · by_cases hlt : m'.1 < p.1
        · simp [hlt] at h
          subst h
          exact nearestHit_min ht q h2
        · simp [hlt] at h
          subst h
          exact le_trans (not_lt.mp hlt) (nearestHit_min ht q h2)

theorem lookHits_spec (M : ThreeMath α) (name : String) (o : SceneObject α)
    (s : Peng3DState α) {d : α} {n : String}
    (h : (d, n) ∈ lookHits M name o s) :
    ∃ o', (n, o') ∈ s.objects ∧ n ≠ name ∧ o'.kind = NodeKind.mesh ∧
      M.raycast (lookRay M o s) o' = some d := by
  simp only [lookHits, List.mem_filterMap] at h
  obtain ⟨p, hp, hf⟩ := h
  obtain ⟨pn, po⟩ := p
  simp only [lookTargets, List.mem_filter] at hp
  obtain ⟨hmem, hcond⟩ := hp
  simp only [decide_eq_true_eq] at hcond
  cases hr : M.raycast (lookRay M o s) po with
  | none =>
    rw [hr] at hf
    simp at hf
  | some dd =>
    rw [hr] at hf
    simp at hf
    obtain ⟨hd, hn⟩ := hf
    subst hd
    subst hn
    exact ⟨po, hmem, hcond.1, hcond.2, hr⟩

theorem updatePhysicsTransform_objects (name : String) (s : Peng3DState α) :
    (_updatePhysicsTransform name s).objects = s.objects := by
  unfold _updatePhysicsTransform
  cases lookupK name s.physicsBodies <;> cases lookupK name s.objects <;> simp

theorem lookupK_stepCopy (M : ThreeMath α) (bodies : List (String × Body α))
    (k : String) :
    ∀ l : List (String × SceneObject α),
      lookupK k (l.map (fun p =>
        match lookupK p.1 bodies with
        | some b =>
          (p.1, { p.2 with position := b.position,
                           quaternion := b.quaternion,
                           rotation := M.quatToEuler b.quaternion })
        | none => p)) =
      (lookupK k l).map (fun o =>
        match lookupK k bodies with
        | some b =>
          { o with position := b.position,
                   quaternion := b.quaternion,
                   rotation := M.quatToEuler b.quaternion }
        | none => o)
  | [] => by simp [lookupK]
  | p :: rest => by
    have ih := lookupK_stepCopy M bodies k rest
    by_cases hk : p.1 = k
    · subst hk
      cases hb : lookupK p.1 bodies <;> simp [lookupK, hb, ih]
    · cases hb : lookupK p.1 bodies <;> simp [lookupK, hk, hb, ih]

end StateLemmas

section Claims

variable {α : Type} [LinearOrderedField α]

/-- C3: the first explicit physics step after scene creation (physics clock
at its uninitialized value 0) or after a full clear (`deleteAllObjects`
resets the clock to 0) only records the current wall-clock time and does
not advance the simulation — the state is unchanged except for the recorded
time, so no body moves; a subsequent step call advances the solver using
the real elapsed time since the previous call. -/
theorem C3_first_step_records_time_only (M : ThreeMath α)
    (solve : α → α → ℕ → List (String × Body α) → List (String × Body α))
    (s s' : Peng3DState α) (now now2 : α)
    (h0 : s.lastPhysTime = 0) (hnow : 0 < now) :
    stepPhysics M solve now s = { s with lastPhysTime := now } ∧
    (deleteAllObjects s').lastPhysTime = 0 ∧
    (stepPhysics M solve now2 (stepPhysics M solve now s)).physicsBodies =
      solve (1 / 60) ((now2 - now) / 1000) 10 s.physicsBodies := by
  have h1 : stepPhysics M solve now s = { s with lastPhysTime := now } := by
    simp [stepPhysics, h0]
  refine ⟨h1, deleteAllObjects_lastPhysTime s', ?_⟩
  rw [h1]
  simp [stepPhysics, hnow.ne', requestRender]

/-- Witness for C3: stepping the freshly created scene at time 5 only
records the clock, and a second step at time 7 hands the solver the real
elapsed budget. -/
theorem C3_first_step_records_time_only_witness :
    stepPhysics Mq idSolve 5 (initialState ℚ) =
      { initialState ℚ with lastPhysTime := 5 } ∧
    (deleteAllObjects sPhys).lastPhysTime = 0 ∧
    (stepPhysics Mq idSolve 7 (stepPhysics Mq idSolve 5 (initialState ℚ))).physicsBodies =
      idSolve (1 / 60) ((7 - 5) / 1000) 10 (initialState ℚ).physicsBodies :=
  C3_first_step_records_time_only Mq idSolve (initialState ℚ) sPhys 5 7
    (by decide) (by decide)

/-- C4: a non-first physics step advances the solver with fixed nominal
tick `1/60`, the measured elapsed seconds `dt = (now - last)/1000` as the
real-time budget, and a hard cap of 10 catch-up sub-steps; the resulting
bodies are stored untouched by the copy-back (in particular their
velocities are exactly what the solver produced), and every body with a
linked object has its position and orientation copied into that object. -/
theorem C4_step_fixed_tick_and_copyback (M : ThreeMath α)
    (solve : α → α → ℕ → List (String × Body α) → List (String × Body α))
    (now : α) (s : Peng3DState α) (k : String) (b : Body α)
    (o : SceneObject α)
    (h : s.lastPhysTime ≠ 0)
    (hb : lookupK k
      (solve (1 / 60) ((now - s.lastPhysTime) / 1000) 10 s.physicsBodies) =
        some b)
    (ho : lookupK k s.objects = some o) :
    (stepPhysics M solve now s).physicsBodies =
      solve (1 / 60) ((now - s.lastPhysTime) / 1000) 10 s.physicsBodies ∧
    (stepPhysics M solve now s).lastPhysTime = now ∧
    lookupK k (stepPhysics M solve now s).objects =
      some { o with position := b.position, quaternion := b.quaternion,
                    rotation := M.quatToEuler b.quaternion } := by
  refine ⟨?_, ?_, ?_⟩
  · simp [stepPhysics, h, requestRender]
  · simp [stepPhysics, h, requestRender]
  · simp only [stepPhysics, if_neg h, requestRender]
    rw [lookupK_stepCopy, ho]
    have hb2 : lookupK k
        (solve (60 : α)⁻¹ ((now - s.lastPhysTime) / 1000) 10 s.physicsBodies) =
          some b := by
      rw [← one_div]
      exact hb
    simp [hb2]

/-- Witness for C4: a second step of the physics-enabled scene at time 7
with the inert solver copies the (unmoved) body transform back into the
cube. -/
theorem C4_step_fixed_tick_and_copyback_witness :
    (stepPhysics Mq idSolve 7 sStepped).physicsBodies =
      idSolve (1 / 60) ((7 - sStepped.lastPhysTime) / 1000) 10
        sStepped.physicsBodies ∧
    (stepPhysics Mq idSolve 7 sStepped).lastPhysTime = 7 ∧
    lookupK "A" (stepPhysics Mq idSolve 7 sStepped).objects =
      some { oA with position := bA.position, quaternion := bA.quaternion,
                     rotation := Mq.quatToEuler bA.quaternion } :=
  C4_step_fixed_tick_and_copyback Mq idSolve 7 sStepped "A" bA oA
    (by decide) (by decide) (by decide)

/-- C6 (corrected): the outcome of a failed load depends on where the
failure occurs, and the scene is not always empty afterwards.  Unparsable
text fails at the `JSON.parse` boundary before `deleteAllObjects()` runs,
leaving the scene unchanged.  A parsed but non-iterable value fails at the
`for..of` after the clear, leaving the scene empty.  A parsed iterable
whose first malformed item is reached fails inside the loop after the
clear: the well-formed prefix has been loaded and the malformed item's own
`createObject` has already registered an object (for `noRot`, with its
position applied) before the throw, so the scene is non-empty and
partially loaded; the trailing items never affect the result. -/
theorem C6_failed_load_parse_boundary (M : ThreeMath α)
    (s : Peng3DState α) (good rest rest2 : List (SceneEntry α))
    (t n : String) (pos : Vec3 α) :
    loadSceneJSON M SceneJSON.badText s = s ∧
    loadSceneJSON M SceneJSON.nonIterable s = deleteAllObjects s ∧
    (loadSceneJSON M SceneJSON.nonIterable s).objects = [] ∧
    lookupK n (loadSceneJSON M
        (SceneJSON.entriesThenBad good (BadItem.noPos t n) rest) s).objects =
      some (freshObject α t) ∧
    (loadSceneJSON M
        (SceneJSON.entriesThenBad good (BadItem.noPos t n) rest) s).objects ≠
      [] ∧
    lookupK n (loadSceneJSON M
        (SceneJSON.entriesThenBad good (BadItem.noRot t n pos) rest)
        s).objects = some { freshObject α t with position := pos } ∧
    loadSceneJSON M (SceneJSON.entriesThenBad good (BadItem.noPos t n) rest)
        s =
      loadSceneJSON M (SceneJSON.entriesThenBad good (BadItem.noPos t n)
        rest2) s := by
  have hnopos : lookupK n (loadSceneJSON M
      (SceneJSON.entriesThenBad good (BadItem.noPos t n) rest) s).objects =
        some (freshObject α t) := by
    simp only [loadSceneJSON, loadBadItem]
    exact lookupK_createObject_self t n _
  have hcreate := lookupK_createObject_self t n
    (good.foldl (loadEntry M) (deleteAllObjects s))
  refine ⟨rfl, rfl, deleteAllObjects_objects s, hnopos,
    lookupK_ne_nil hnopos, ?_, rfl⟩
  simp only [loadSceneJSON, loadBadItem, hcreate]
  rw [lookupK_setK_self, hcreate]
  rfl

/-- Counterexample to C6 as stated: loading unparsable text over a
previously-valid nonempty scene leaves the scene exactly as it was — and in
particular nonempty — contradicting "after any failed load the scene is
empty rather than unchanged". -/
theorem C6_failed_load_leaves_scene_intact :
    loadSceneJSON Mq SceneJSON.badText
        (createObject "Cube" "A" (initialState ℚ)) =
      createObject "Cube" "A" (initialState ℚ) ∧
    (createObject "Cube" "A" (initialState ℚ)).objects ≠ [] :=
  ⟨rfl, by decide⟩

/-- C7: every name-taking operation (the transform setters, the scale
setter, delete, and the physics operations) is a silent no-op on a name
that is not in the registry: it is a total function (no error is raised or
returned) and it leaves the whole state unchanged — except `deleteObject`,
which still requests a render but changes nothing else. -/
theorem C7_unknown_name_silent_noop (M : ThreeMath α) (s : Peng3DState α)
    (name target prop : String) (x y z yaw pitch val : α)
    (ho : lookupK name s.objects = none)
    (hb : lookupK name s.physicsBodies = none) :
    setPos name x y z s = s ∧
    changePosition name x y z s = s ∧
    moveObject M name x y z s = s ∧
    setRot M name x y z s = s ∧
    changeRotation M name x y z s = s ∧
    setRotYawPitch M name yaw pitch s = s ∧
    lookAtObject M name target s = s ∧
    setScale name x y z s = s ∧
    deleteObject name s = requestRender s ∧
    enablePhysics name s = s ∧
    pushObject name x y z s = s ∧
    setPhysProp name prop val s = s := by
  refine ⟨?_, ?_, ?_, ?_, ?_, ?_, ?_, ?_, ?_, ?_, ?_, ?_⟩
  · simp [setPos, ho]
  · simp [changePosition, ho]
  · simp [moveObject, ho]
  · simp [setRot, ho]
  · simp [changeRotation, ho]
  · simp [setRotYawPitch, ho]
  · cases ht : lookupK target s.objects <;> simp [lookAtObject, ho, ht]
  · simp [setScale, ho]
  · simp [deleteObject, _disposeObject, ho]
  · simp [enablePhysics, ho]
  · simp [pushObject, hb]
  · simp [setPhysProp, hb]

/-- Witness for C7: operating on the unregistered name `Z` of the
physics-enabled example scene changes nothing. -/
theorem C7_unknown_name_silent_noop_witness :
    setPos "Z" 1 2 3 sPhys = sPhys ∧
    changePosition "Z" 1 2 3 sPhys = sPhys ∧
    moveObject Mq "Z" 1 2 3 sPhys = sPhys ∧
    setRot Mq "Z" 1 2 3 sPhys = sPhys ∧
    changeRotation Mq "Z" 1 2 3 sPhys = sPhys ∧
    setRotYawPitch Mq "Z" 4 5 sPhys = sPhys ∧
    lookAtObject Mq "Z" "A" sPhys = sPhys ∧
    setScale "Z" 1 2 3 sPhys = sPhys ∧
    deleteObject "Z" sPhys = requestRender sPhys ∧
    enablePhysics "Z" sPhys = sPhys ∧
    pushObject "Z" 1 2 3 sPhys = sPhys ∧
    setPhysProp "Z" "fixed" 1 sPhys = sPhys :=
  C7_unknown_name_silent_noop Mq sPhys "Z" "A" "fixed" 1 2 3 4 5 1
    (by decide) (by decide)

/-- C10: `getDistanceBetween` returns the number 0 (not an error, a string
or a missing value — its result type is the numeric scalar) when either
name is unknown, and the Euclidean distance (the square root of the squared
coordinate-difference sum) when both objects exist. -/
theorem C10_distance_unknown_zero (M : ThreeMath α) (s : Peng3DState α)
    (n1 n2 : String) (o1 o2 : SceneObject α) :
    (lookupK n1 s.objects = none → getDistanceBetween M n1 n2 s = 0) ∧
    (lookupK n2 s.objects = none → getDistanceBetween M n1 n2 s = 0) ∧
    (lookupK n1 s.objects = some o1 → lookupK n2 s.objects = some o2 →
      getDistanceBetween M n1 n2 s =
        M.sqrt (distSq o1.position o2.position)) := by
  refine ⟨?_, ?_, ?_⟩
  · intro h1
    cases h2 : lookupK n2 s.objects <;> simp [getDistanceBetween, h1, h2]
  · intro h2
    cases h1 : lookupK n1 s.objects <;> simp [getDistanceBetween, h1, h2]
  · intro h1 h2
    simp [getDistanceBetween, h1, h2]

/-- Witness for C10 on the 3-4-5 example scene: unknown `C` yields 0 on
either side, and the `A`–`B` distance is the square root of 25. -/
theorem C10_distance_unknown_zero_witness :
    getDistanceBetween Mq "C" "B" sDist = 0 ∧
    getDistanceBetween Mq "A" "C" sDist = 0 ∧
    getDistanceBetween Mq "A" "B" sDist =
      Mq.sqrt (distSq oA.position oB.position) :=
  ⟨(C10_distance_unknown_zero Mq sDist "C" "B" oA oB).1 (by decide),
   (C10_distance_unknown_zero Mq sDist "A" "C" oA oB).2.1 (by decide),
   (C10_distance_unknown_zero Mq sDist "A" "B" oA oB).2.2
     (by decide) (by decide)⟩

/-- C1: after any direct transform-setting operation (absolute position
set, relative change, local-axis move, rotation set/change, yaw/pitch set,
look-at with an existing target) on a name that has both an object and a
linked PhysicsBody, the body's position and orientation equal the object's,
its linear and angular velocities are both zero, and it is awake. -/
theorem C1_direct_transform_syncs_body (M : ThreeMath α) (s : Peng3DState α)
    (name target : String) (x y z yaw pitch : α)
    (o t : SceneObject α) (b : Body α)
    (ho : lookupK name s.objects = some o)
    (ht : lookupK target s.objects = some t)
    (hb : lookupK name s.physicsBodies = some b) :
    syncedAt (setPos name x y z s) name ∧
    syncedAt (changePosition name x y z s) name ∧
    syncedAt (moveObject M name x y z s) name ∧
    syncedAt (setRot M name x y z s) name ∧
    syncedAt (changeRotation M name x y z s) name ∧
    syncedAt (setRotYawPitch M name yaw pitch s) name ∧
    syncedAt (lookAtObject M name target s) name := by
  refine ⟨?_, ?_, ?_, ?_, ?_, ?_, ?_⟩
  · simp only [setPos, ho]
    exact syncedAt_requestRender_update name s o _ b ho hb
  · simp only [changePosition, ho]
    exact syncedAt_requestRender_update name s o _ b ho hb
  · simp only [moveObject, ho]
    exact syncedAt_requestRender_update name s o _ b ho hb
  · simp only [setRot, ho]
    exact syncedAt_requestRender_update name s o _ b ho hb
  · simp only [changeRotation, ho]
    exact syncedAt_requestRender_update name s o _ b ho hb
  · simp only [setRotYawPitch, ho]
    exact syncedAt_requestRender_update name s o _ b ho hb
  · simp only [lookAtObject, ho, ht]
    exact syncedAt_requestRender_update name s o _ b ho hb

/-- Witness for C1 on the physics-enabled example scene: each of the seven
direct transform operations on `A` leaves its body synced with zeroed
velocities. -/
theorem C1_direct_transform_syncs_body_witness :
    syncedAt (setPos "A" 1 2 3 sPhys) "A" ∧
    syncedAt (changePosition "A" 1 2 3 sPhys) "A" ∧
    syncedAt (moveObject Mq "A" 1 2 3 sPhys) "A" ∧
    syncedAt (setRot Mq "A" 1 2 3 sPhys) "A" ∧
    syncedAt (changeRotation Mq "A" 1 2 3 sPhys) "A" ∧
    syncedAt (setRotYawPitch Mq "A" 4 5 sPhys) "A" ∧
    syncedAt (lookAtObject Mq "A" "A" sPhys) "A" :=
  C1_direct_transform_syncs_body Mq sPhys "A" "A" 1 2 3 4 5 oA oA bA
    (by decide) (by decide) (by decide)

/-- C2: after `create(name, k1)` and then `create(name, k2)` on a state
where `name` exists with a linked PhysicsBody, the registry holds exactly
one entry for `name`, it is the fresh node of type `k2`, the body and
phys-data registries have no entry for `name`, and the previously linked
body is gone from the physics world and from the id-to-name map. -/
theorem C2_create_twice_replaces (s : Peng3DState α) (name k1 k2 : String)
    (o0 : SceneObject α) (b : Body α)
    (ho : lookupK name s.objects = some o0)
    (hb : lookupK name s.physicsBodies = some b) :
    lookupK name (createObject k2 name (createObject k1 name s)).objects =
      some (freshObject α k2) ∧
    (freshObject α k2).type = k2 ∧
    countK name (createObject k2 name (createObject k1 name s)).objects = 1 ∧
    lookupK name
      (createObject k2 name (createObject k1 name s)).physicsBodies = none ∧
    lookupK name
      (createObject k2 name (createObject k1 name s)).objectPhysData = none ∧
    b.id ∉ (createObject k2 name (createObject k1 name s)).worldBodies ∧
    lookupK b.id
      (createObject k2 name (createObject k1 name s)).bodyToName = none := by
  obtain ⟨hpb1, hpd1, hwb1, hbn1⟩ :=
    createObject_bodyParts_some_body k1 name s o0 b ho hb
  have hobj1 := createObject_objects_some k1 name s o0 ho
  have ho2 : lookupK name (createObject k1 name s).objects =
      some (freshObject α k1) := by
    rw [hobj1, lookupK_append, lookupK_eraseK_self]
    simp [lookupK]
  have hb2 : lookupK name (createObject k1 name s).physicsBodies = none := by
    rw [hpb1, lookupK_eraseK_self]
  obtain ⟨hpb2, hpd2, hwb2, hbn2⟩ :=
    createObject_bodyParts_some_nobody k2 name (createObject k1 name s)
      (freshObject α k1) ho2 hb2
  have hobj2 := createObject_objects_some k2 name (createObject k1 name s)
    (freshObject α k1) ho2
  have herase : eraseK name (createObject k1 name s).objects =
      eraseK name s.objects := by
    rw [hobj1, eraseK_append]
    have h1 : eraseK name (eraseK name s.objects) = eraseK name s.objects :=
      eraseK_of_lookupK_none (lookupK_eraseK_self name s.objects)
    simp [eraseK, h1]
  refine ⟨?_, rfl, ?_, ?_, ?_, ?_, ?_⟩
  · rw [hobj2, herase, lookupK_append, lookupK_eraseK_self]
    simp [lookupK]
  · rw [hobj2, herase, countK_append_single_self, countK_eraseK_self]
  · rw [hpb2, hpb1, lookupK_eraseK_self]
  · rw [hpd2, hpd1, lookupK_eraseK_self]
  · rw [hwb2, hwb1]
    exact not_mem_filter_ne_self b.id s.worldBodies
  · rw [hbn2, hbn1, lookupK_eraseK_self]

/-- Witness for C2: re-creating `A` first as a Sphere and then as a Light
on the physics-enabled example scene leaves a single Light entry and no
trace of the old body. -/
theorem C2_create_twice_replaces_witness :
    lookupK "A"
      (createObject "Light" "A" (createObject "Sphere" "A" sPhys)).objects =
        some (freshObject ℚ "Light") ∧
    (freshObject ℚ "Light").type = "Light" ∧
    countK "A"
      (createObject "Light" "A" (createObject "Sphere" "A" sPhys)).objects = 1 ∧
    lookupK "A"
      (createObject "Light" "A"
        (createObject "Sphere" "A" sPhys)).physicsBodies = none ∧
    lookupK "A"
      (createObject "Light" "A"
        (createObject "Sphere" "A" sPhys)).objectPhysData = none ∧
    bA.id ∉
      (createObject "Light" "A" (createObject "Sphere" "A" sPhys)).worldBodies ∧
    lookupK bA.id
      (createObject "Light" "A"
        (createObject "Sphere" "A" sPhys)).bodyToName = none :=
  C2_create_twice_replaces sPhys "A" "Sphere" "Light" oA bA
    (by decide) (by decide)

/-- C9 (corrected): the `rot` field of a dump entry carries the object's
stored Euler rotation in radians, not degrees: each entry's `rot` equals
`obj.rotation` verbatim, and after the public degree-taking
`setRot(name, x, y, z)` the dumped `rot` is the degree arguments scaled by
`pi / 180`. -/
theorem C9_dump_rot_is_radians (M : ThreeMath α) (s : Peng3DState α)
    (name : String) (o : SceneObject α) (x y z : α)
    (ho : lookupK name s.objects = some o) :
    (∃ e ∈ getSceneJSON s, e.name = name ∧ e.rot = o.rotation) ∧
    (∃ e ∈ getSceneJSON (setRot M name x y z s), e.name = name ∧
      e.rot = ⟨x * (M.pi / 180), y * (M.pi / 180), z * (M.pi / 180)⟩) := by
  constructor
  · exact ⟨_, List.mem_map_of_mem _ (lookupK_mem ho), rfl, rfl⟩
  · have hobjs : (setRot M name x y z s).objects =
        setK name
          { o with
              rotation :=
                ⟨x * (M.pi / 180), y * (M.pi / 180), z * (M.pi / 180)⟩,
              quaternion :=
                M.eulerToQuat
                  ⟨x * (M.pi / 180), y * (M.pi / 180), z * (M.pi / 180)⟩ }
          s.objects := by
      simp only [setRot, ho, requestRender, updatePhysicsTransform_objects]
    have hlk : lookupK name (setRot M name x y z s).objects =
        some
          { o with
              rotation :=
                ⟨x * (M.pi / 180), y * (M.pi / 180), z * (M.pi / 180)⟩,
              quaternion :=
                M.eulerToQuat
                  ⟨x * (M.pi / 180), y * (M.pi / 180), z * (M.pi / 180)⟩ } := by
      rw [hobjs, lookupK_setK_self, ho]
      rfl
    exact ⟨_, List.mem_map_of_mem _ (lookupK_mem hlk), rfl, rfl⟩

/-- Witness for C9 on the physics-enabled example scene: dumping after
`setRot("A", 90, 0, 0)` records the scaled radians value. -/
theorem C9_dump_rot_is_radians_witness :
    (∃ e ∈ getSceneJSON sPhys, e.name = "A" ∧ e.rot = oA.rotation) ∧
    (∃ e ∈ getSceneJSON (setRot Mq "A" 90 0 0 sPhys), e.name = "A" ∧
      e.rot = ⟨90 * (Mq.pi / 180), 0 * (Mq.pi / 180), 0 * (Mq.pi / 180)⟩) :=
  C9_dump_rot_is_radians Mq sPhys "A" oA 90 0 0 (by decide)

/-- Counterexample to C9 as stated: with the real `π`, setting the rotation
of a cube to 180 degrees through the public surface and dumping the scene
yields a `rot.x` of `π` (radians), not the degree value 180 — so the
serialized `rot` field is not expressed in degrees. -/
theorem C9_rot_not_degrees :
    (getSceneJSON (setRot (piOnly Real.pi) "A" 180 0 0
      { objects := [("A",
          { type := "Cube", kind := NodeKind.mesh, position := ⟨0, 0, 0⟩,
            rotation := ⟨0, 0, 0⟩, quaternion := ⟨0, 0, 0, 1⟩,
            scale := ⟨1, 1, 1⟩, sharedMaterial := true, color := 16777215,
            intensity := 0, distance := 0 })],
        physicsBodies := [], objectPhysData := [], worldBodies := [],
        bodyToName := [], nextBodyId := 0, lastPhysTime := 0,
        renderPending := false, activeCamera := none,
        config := { shadows := 1, renderDistance := 100 } })).map
      (fun e => e.rot.x) ≠ [(180 : ℝ)] := by
  show [(180 : ℝ) * (Real.pi / 180)] ≠ [(180 : ℝ)]
  have hpi : (180 : ℝ) * (Real.pi / 180) = Real.pi := by
    field_simp
  rw [hpi]
  intro hc
  have h1 : Real.pi = 180 := by simpa using hc
  have h2 := Real.pi_lt_315
  rw [h1] at h2
  norm_num at h2

/-- C5 (code bug): the round-trip contract fails for the colour black.  A
cube whose colour was set to `0x000000` dumps with `color = 0`, and the
loader's truthiness guard `if (item.color)` skips reapplying it, so
`load(dump())` leaves the object at the default white `0xffffff` instead of
its original colour. -/
theorem C5_roundtrip_drops_black_color :
    lookupK "A" sBlack.objects =
      some { oA with sharedMaterial := false, color := 0 } ∧
    ({ oA with sharedMaterial := false, color := 0 } : SceneObject ℚ).color
      = 0 ∧
    lookupK "A"
      (loadSceneJSON Mq (SceneJSON.entries (getSceneJSON sBlack))
        sBlack).objects = some (freshObject ℚ "Cube") ∧
    (freshObject ℚ "Cube").color = 16777215 := by
  exact ⟨by decide, by decide, by decide, by decide⟩

/-- C8: for an existing source object, `getLookingAt` reports the empty
string exactly when the forward ray (origin at the object's position,
direction the `-Z` axis rotated by its orientation, near `0.1`, far the
render distance) hits no other mesh object; a nonempty result names a mesh
object other than the source that the ray intersects, at a distance no
greater than every other intersected candidate's. -/
theorem C8_lookingAt_nearest_mesh (M : ThreeMath α) (s : Peng3DState α)
    (name : String) (o : SceneObject α)
    (ho : lookupK name s.objects = some o)
    (hne : ∀ p ∈ s.objects, p.1 ≠ "") :
    (getLookingAt M name s = "" ↔ lookHits M name o s = []) ∧
    (∀ r : String, getLookingAt M name s = r → r ≠ "" →
      ∃ d : α, (d, r) ∈ lookHits M name o s ∧
        (∃ o', (r, o') ∈ s.objects ∧ r ≠ name ∧
          o'.kind = NodeKind.mesh ∧
          M.raycast (lookRay M o s) o' = some d) ∧
        ∀ q ∈ lookHits M name o s, d ≤ q.1) := by
  have hg : getLookingAt M name s =
      match nearestHit (lookHits M name o s) with
      | some m => m.2
      | none => "" := by
    simp [getLookingAt, ho]
  constructor
  · constructor
    · intro h
      rw [hg] at h
      cases hnh : nearestHit (lookHits M name o s) with
      | none => exact nearestHit_eq_none.mp hnh
      | some m =>
        rw [hnh] at h
        simp at h
        have hm := nearestHit_mem hnh
        obtain ⟨o', hmem, hnn, hmesh, hray⟩ :=
          lookHits_spec M name o s (show (m.1, m.2) ∈ _ from hm)
        exact absurd (h ▸ hmem) (fun hq => hne _ hq (by rfl))
    · intro h
      rw [hg, nearestHit_eq_none.mpr h]
  · intro r hr hrne
    rw [hg] at hr
    cases hnh : nearestHit (lookHits M name o s) with
    | none =>
      rw [hnh] at hr
      simp at hr
      exact absurd hr.symm hrne
    | some m =>
      rw [hnh] at hr
      simp at hr
      subst hr
      have hm := nearestHit_mem hnh
      exact ⟨m.1, hm, lookHits_spec M name o s (show (m.1, m.2) ∈ _ from hm),
        fun q hq => nearestHit_min hnh q hq⟩

/-- Witness for C8: with a host raycast that hits every candidate at the
candidate's `x` coordinate, the cube `A` of the two-cube example scene sees
`B`. -/
theorem C8_lookingAt_nearest_mesh_witness :
    (getLookingAt (hitAtX (3 : ℚ)) "A" sAB = "" ↔
      lookHits (hitAtX (3 : ℚ)) "A" oA sAB = []) ∧
    (∀ r : String, getLookingAt (hitAtX (3 : ℚ)) "A" sAB = r → r ≠ "" →
      ∃ d : ℚ, (d, r) ∈ lookHits (hitAtX (3 : ℚ)) "A" oA sAB ∧
        (∃ o', (r, o') ∈ sAB.objects ∧ r ≠ "A" ∧
          o'.kind = NodeKind.mesh ∧
          (hitAtX (3 : ℚ)).raycast (lookRay (hitAtX (3 : ℚ)) oA sAB) o' =
            some d) ∧
        ∀ q ∈ lookHits (hitAtX (3 : ℚ)) "A" oA sAB, d ≤ q.1) :=
  C8_lookingAt_nearest_mesh (hitAtX (3 : ℚ)) sAB "A" oA
    (by decide) (by decide)

end Claims

end Peng3D
